import Mathlib

/-!
Documentation-site scripts of locust-k8s-operator.

Shallow embedding of

* `docs/assets/javascripts/scroll-effects.js` (hero fade mapper `handleScroll`),
* `pr-273/assets/javascripts/custom-announcements.js` (class `CustomAnnouncement`),
* `pr-273/assets/javascripts/scroll-effects.js` (frame-coalesced `handleScroll`).

Numbers are rationals.  The hero fade mapper is given twice: `handleScroll`
computes with exact arithmetic, `handleScrollBinary64` rounds every literal
and every arithmetic result to binary64 as JavaScript does.  Inline styles
are kept as structured values instead of CSS text.
-/

namespace LocustDocs

/-! ## docs/assets/javascripts/scroll-effects.js -/

namespace HeroFade

/-- The values of `element.style.transform` that the script writes.
`unset` is the empty inline style of an element the script never touched. -/
inductive Transform where
  /-- no inline transform -/
  | unset
  /-- the text `scale(k)` -/
  | scale (k : ℚ)
  /-- the text `scale(k) translateY(-upPx px)` -/
  | scaleTranslateUp (k : ℚ) (upPx : ℚ)
  /-- the text `translateY(0)` -/
  | translateZero
  /-- the text `translateY(-upPx px)` -/
  | translateUp (upPx : ℚ)
  deriving DecidableEq, Repr

/-- Scale factor carried by a transform (`1` when the text has no `scale`). -/
def Transform.scaleOf : Transform → ℚ
  | .scale k => k
  | .scaleTranslateUp k _ => k
  | _ => 1

/-- Upward vertical offset in px carried by a transform. -/
def Transform.upOf : Transform → ℚ
  | .scaleTranslateUp _ u => u
  | .translateUp u => u
  | _ => 0

/-- Inline style of one element: the three properties the script touches. -/
structure Style where
  /-- The property `style.opacity`; `none` while never assigned -/
  opacity : Option ℚ
  transform : Transform
  /-- The property `style.transition` -/
  transition : String
  deriving DecidableEq, Repr

/-- The elements captured by the `DOMContentLoaded` closure.  `heroImage` is
non-null there (the listener returns early otherwise); `mainTitle` and
`heroContent` may be `null`. -/
structure Dom where
  heroImage : Style
  mainTitle : Option Style
  heroContent : Option Style
  deriving DecidableEq, Repr

/-- What `handleScroll` reads from the viewport. -/
structure Viewport where
  /-- The reading `window.pageYOffset` -/
  pageYOffset : ℚ
  /-- The reading `document.documentElement.scrollTop` -/
  documentScrollTop : ℚ
  deriving DecidableEq, Repr

/-- The local `scrollTop`: `window.pageYOffset || document.documentElement.scrollTop`. -/
def scrollTop (w : Viewport) : ℚ :=
  if w.pageYOffset ≠ 0 then w.pageYOffset else w.documentScrollTop

def fadePoint : ℚ := 50

def maxFadeScroll : ℚ := 300

/-- The local `fadePercentage` of the middle branch of `handleScroll`. -/
def fadePercentage (scrollTop : ℚ) : ℚ :=
  (scrollTop - fadePoint) / (maxFadeScroll - fadePoint)

/-- The function `handleScroll` of docs/assets/javascripts/scroll-effects.js,
as a transformer of the inline styles, its arithmetic taken over exact
rationals (no rounding). -/
def handleScroll (w : Viewport) (d : Dom) : Dom :=
  let scrollTop := scrollTop w
  if scrollTop ≤ fadePoint then
    { d with
      heroImage := { d.heroImage with opacity := some 1, transform := .scale (105 / 100) }
      mainTitle := d.mainTitle.map fun t =>
        { t with opacity := some 1, transform := .translateZero } }
  else if scrollTop ≤ maxFadeScroll then
    let fadePercentage := fadePercentage scrollTop
    { heroImage :=
        { d.heroImage with
          opacity := some (max 0 (1 - fadePercentage))
          transform :=
            .scaleTranslateUp (105 / 100 - fadePercentage * (5 / 100)) (fadePercentage * 30) }
      mainTitle := d.mainTitle.map fun t =>
        { t with
          opacity := some (max 0 (1 - fadePercentage * (15 / 10)))
          transform := .translateUp (fadePercentage * 20) }
      heroContent := d.heroContent.map fun c =>
        { c with opacity := some (max 0 (1 - fadePercentage * (12 / 10))) } }
  else
    { heroImage := { d.heroImage with opacity := some 0, transform := .scaleTranslateUp 1 30 }
      mainTitle := d.mainTitle.map fun t =>
        { t with opacity := some 0, transform := .translateUp 20 }
      heroContent := d.heroContent.map fun c => { c with opacity := some 0 } }

/-- Nearest integer, a tie going to the even one. -/
def roundHalfEven (x : ℚ) : ℤ :=
  if x - ⌊x⌋ < 1 / 2 then ⌊x⌋
  else if 1 / 2 < x - ⌊x⌋ then ⌊x⌋ + 1
  else if ⌊x⌋ % 2 = 0 then ⌊x⌋ else ⌊x⌋ + 1

/-- The binary64 number nearest to `x` (53 significant bits, round to
nearest, ties to even); the exponent range is not bounded, so overflow and
subnormal numbers are left out. -/
def f64 (x : ℚ) : ℚ :=
  if x = 0 then 0
  else roundHalfEven (x / 2 ^ (Int.log 2 |x| - 52)) * 2 ^ (Int.log 2 |x| - 52)

/-- The local `fadePercentage` as JavaScript computes it, with a rounding
after the subtractions and after the division. -/
def fadePercentageBinary64 (scrollTop : ℚ) : ℚ :=
  f64 (f64 (scrollTop - fadePoint) / f64 (maxFadeScroll - fadePoint))

/-- The function `handleScroll` of docs/assets/javascripts/scroll-effects.js
with JavaScript's arithmetic: the literals `1.05`, `0.05`, `1.2` and every
result of `-`, `*`, `/` are rounded to binary64 (`1.5`, `30`, `20` and the
integers are binary64 numbers).  The viewport readings are taken to be
binary64 numbers.  A number in a style stands for the text JavaScript prints
for it, the shortest decimal that reads back as that binary64 number, so the
constant text `scale(1.05)` is the number `f64 (105 / 100)`. -/
def handleScrollBinary64 (w : Viewport) (d : Dom) : Dom :=
  let scrollTop := scrollTop w
  if scrollTop ≤ fadePoint then
    { d with
      heroImage := { d.heroImage with opacity := some 1, transform := .scale (f64 (105 / 100)) }
      mainTitle := d.mainTitle.map fun t =>
        { t with opacity := some 1, transform := .translateZero } }
  else if scrollTop ≤ maxFadeScroll then
    let fadePercentage := fadePercentageBinary64 scrollTop
    { heroImage :=
        { d.heroImage with
          opacity := some (max 0 (f64 (1 - fadePercentage)))
          transform :=
            .scaleTranslateUp (f64 (f64 (105 / 100) - f64 (fadePercentage * f64 (5 / 100))))
              (f64 (fadePercentage * 30)) }
      mainTitle := d.mainTitle.map fun t =>
        { t with
          opacity := some (max 0 (f64 (1 - f64 (fadePercentage * (15 / 10)))))
          transform := .translateUp (f64 (fadePercentage * 20)) }
      heroContent := d.heroContent.map fun c =>
        { c with opacity := some (max 0 (f64 (1 - f64 (fadePercentage * f64 (12 / 10))))) } }
  else
    { heroImage := { d.heroImage with opacity := some 0, transform := .scaleTranslateUp 1 30 }
      mainTitle := d.mainTitle.map fun t =>
        { t with opacity := some 0, transform := .translateUp 20 }
      heroContent := d.heroContent.map fun c => { c with opacity := some 0 } }

/-- The elements found by the three `querySelector` calls of the listener. -/
structure Page where
  heroImage : Option Style
  mainTitle : Option Style
  heroContent : Option Style
  deriving DecidableEq, Repr

/-- The `DOMContentLoaded` listener up to and including its first call of
`handleScroll`; `none` when `.tx-hero__image` is missing and the listener
returns before defining anything. -/
def onDOMContentLoaded (w : Viewport) (p : Page) : Option Dom :=
  match p.heroImage with
  | none => none
  | some hero =>
    let heroImage := { hero with transform := .scale (105 / 100) }
    let mainTitle := p.mainTitle.map fun t =>
      { t with transition := "opacity 0.4s ease-out, transform 0.4s ease-out" }
    let heroContent := p.heroContent.map fun c =>
      { c with transition := "opacity 0.4s ease-out" }
    some (handleScroll w { heroImage := heroImage, mainTitle := mainTitle, heroContent := heroContent })

/-- A page with all three targets present and no inline style yet. -/
def freshPage : Page :=
  { heroImage := some { opacity := none, transform := .unset, transition := "" }
    mainTitle := some { opacity := none, transform := .unset, transition := "" }
    heroContent := some { opacity := none, transform := .unset, transition := "" } }

/-- Styles with every target present, as left by a page load at the top. -/
def loadedDom : Dom :=
  { heroImage := { opacity := some 1, transform := .scale (105 / 100), transition := "" }
    mainTitle := some { opacity := some 1, transform := .translateZero,
                        transition := "opacity 0.4s ease-out, transform 0.4s ease-out" }
    heroContent := some { opacity := none, transform := .unset,
                          transition := "opacity 0.4s ease-out" } }

/-- Viewport scrolled to `s` (both readings agree). -/
def viewportAt (s : ℚ) : Viewport := { pageYOffset := s, documentScrollTop := s }

end HeroFade

/-! ## pr-273/assets/javascripts/custom-announcements.js -/

namespace Announcement

/-- The `options` argument of the constructor: any subset of the five
recognised properties (`none` = property not given). -/
structure OptionsArg where
  type : Option String := none
  message : Option String := none
  link : Option String := none
  linkText : Option String := none
  storageKey : Option String := none
  deriving DecidableEq, Repr

/-- The value of `this.options` after the constructor merged the defaults. -/
structure Options where
  type : String
  message : String
  link : String
  linkText : String
  storageKey : String
  deriving DecidableEq, Repr

/-- The object literal of the constructor, defaults overridden by `...options`. -/
def mergeOptions (options : OptionsArg) : Options :=
  { type := options.type.getD "badge"
    message := options.message.getD "Discover the newest features in our latest release!"
    link := options.link.getD "https://github.com/AbdelrhmanHamouda/locust-k8s-operator/releases"
    linkText := options.linkText.getD "Explore Release"
    storageKey := options.storageKey.getD "announcement-v1" }

/-- An exception raised by the host environment. -/
inductive JsError where
  /-- the `DOMException` of a refused `localStorage` call -/
  | storageAccess
  deriving DecidableEq, Repr

/-- How a piece of script ended. -/
inductive Completion where
  | normal
  | thrown (e : JsError)
  deriving DecidableEq, Repr

/-- The browser's `localStorage`: its entries and how it fails.  A browser
that refuses access to storage throws on every call (`readThrows` and
`writeThrows` both set); a storage whose quota is exhausted throws on
`setItem` only (`writeThrows` alone). -/
structure LocalStorage where
  items : List (String × String)
  /-- access to the storage is refused: `getItem` and `removeItem` throw -/
  readThrows : Bool
  /-- the call of `setItem` throws -/
  writeThrows : Bool
  deriving DecidableEq, Repr

/-- The call `localStorage.getItem(key)`: `none` is `null`. -/
def LocalStorage.getItem (st : LocalStorage) (key : String) : Except JsError (Option String) :=
  if st.readThrows then .error .storageAccess else .ok (st.items.lookup key)

/-- The call `localStorage.setItem(key, value)`. -/
def LocalStorage.setItem (st : LocalStorage) (key value : String) : Except JsError LocalStorage :=
  if st.writeThrows then .error .storageAccess
  else .ok { st with items := (key, value) :: st.items.filter fun kv => kv.1 != key }

/-- The call `localStorage.removeItem(key)`: it stores nothing, so it throws
only when access to the storage is refused. -/
def LocalStorage.removeItem (st : LocalStorage) (key : String) : Except JsError LocalStorage :=
  if st.readThrows then .error .storageAccess
  else .ok { st with items := st.items.filter fun kv => kv.1 != key }

/-- JavaScript truthiness of what `getItem` returns: `null` and the empty
string are falsy. -/
def truthy : Option String → Bool
  | none => false
  | some v => v != ""

/-- The two `innerHTML` templates, by the option values they interpolate. -/
inductive Markup where
  | badge (message : String)
  | modal (message link linkText : String)
  deriving DecidableEq, Repr

/-- An element made by `document.createElement('div')`. -/
structure Element where
  /-- creation index, standing for the object identity -/
  id : Nat
  /-- The classes held by `className` / `classList` -/
  classes : List String
  innerHTML : Markup
  deriving DecidableEq, Repr

/-- The closures handed to `setTimeout`. -/
inductive TimerCallback where
  /-- The closure `() => element.classList.add('show')` -/
  | addShow (element : Nat)
  /-- the closure of `dismiss`: `element.remove(); localStorage.setItem(key, 'true')` -/
  | finishDismiss (element : Nat) (storageKey : String)
  deriving DecidableEq, Repr

structure Timer where
  callback : TimerCallback
  delayMs : Nat
  deriving DecidableEq, Repr

/-- The part of the browser the class acts on. -/
structure Page where
  /-- children appended to `document.body` by the script, in order -/
  body : List Element
  /-- number of elements created so far -/
  created : Nat
  /-- pending `setTimeout` calls -/
  timers : List Timer
  localStorage : LocalStorage
  deriving DecidableEq, Repr

/-- The call `element.classList.add(cls)`. -/
def classListAdd (cls : String) (e : Element) : Element :=
  if cls ∈ e.classes then e else { e with classes := e.classes ++ [cls] }

/-- The `div` built by `createBadge`. -/
def badgeElement (o : Options) (id : Nat) : Element :=
  { id := id, classes := ["custom-announcement-badge"], innerHTML := .badge o.message }

/-- The `div` built by `createModal`. -/
def modalElement (o : Options) (id : Nat) : Element :=
  { id := id, classes := ["custom-announcement-modal"],
    innerHTML := .modal o.message o.link o.linkText }

/-- The method `createBadge` (the click handlers it installs call `window.open`
and `dismiss`; they are events of their own). -/
def createBadge (o : Options) (p : Page) : Page :=
  { p with
    body := p.body ++ [badgeElement o p.created]
    created := p.created + 1
    timers := p.timers ++ [{ callback := .addShow p.created, delayMs := 100 }] }

/-- The method `createModal`. -/
def createModal (o : Options) (p : Page) : Page :=
  { p with
    body := p.body ++ [modalElement o p.created]
    created := p.created + 1
    timers := p.timers ++ [{ callback := .addShow p.created, delayMs := 100 }] }

/-- The method `init`. -/
def init (o : Options) (p : Page) : Page × Completion :=
  match p.localStorage.getItem o.storageKey with
  | .error e => (p, .thrown e)
  | .ok item =>
    if truthy item then (p, .normal)
    else if o.type = "badge" then (createBadge o p, .normal)
    else (createModal o p, .normal)

/-- The constructor: `new CustomAnnouncement(options)`. -/
def construct (options : OptionsArg) (p : Page) : Page × Completion :=
  init (mergeOptions options) p

/-- The timer that `dismiss(element)` sets. -/
def dismissTimer (o : Options) (element : Nat) : Timer :=
  { callback := .finishDismiss element o.storageKey, delayMs := 300 }

/-- The method `dismiss(element)`: it only marks the element and sets a timer. -/
def dismiss (o : Options) (element : Nat) (p : Page) : Page :=
  { p with
    body := p.body.map fun e => if e.id = element then classListAdd "dismissing" e else e
    timers := p.timers ++ [dismissTimer o element] }

/-- Body of a timer callback. -/
def runCallback : TimerCallback → Page → Page × Completion
  | .addShow element, p =>
    ({ p with body := p.body.map fun e => if e.id = element then classListAdd "show" e else e },
      .normal)
  | .finishDismiss element storageKey, p =>
    let removed := { p with body := p.body.filter fun e => e.id != element }
    match removed.localStorage.setItem storageKey "true" with
    | .error e => (removed, .thrown e)
    | .ok st => ({ removed with localStorage := st }, .normal)

/-- A pending timer expires: it leaves the pending list and its callback runs. -/
def fireTimer (t : Timer) (p : Page) : Page × Completion :=
  runCallback t.callback { p with timers := p.timers.erase t }

/-- The `DOMContentLoaded` listener at the end of the file. -/
def onDOMContentLoaded (p : Page) : Page × Completion :=
  match p.localStorage.removeItem "release-modal-v2" with
  | .error e => (p, .thrown e)
  | .ok st1 =>
    match st1.removeItem "release-modal-v1" with
    | .error e => ({ p with localStorage := st1 }, .thrown e)
    | .ok st2 =>
      construct
        { type := some "badge"
          message := some "New release available!"
          link := some "https://github.com/AbdelrhmanHamouda/locust-k8s-operator/releases"
          linkText := some "Explore Release"
          storageKey := some "release-modal-v3" }
        { p with localStorage := st2 }

/-- A page on which storage works and holds the given entries. -/
def pageWith (items : List (String × String)) : Page :=
  { body := [], created := 0, timers := [],
    localStorage := { items := items, readThrows := false, writeThrows := false } }

/-- A page on which every `localStorage` call throws. -/
def blockedPage : Page :=
  { body := [], created := 0, timers := [],
    localStorage := { items := [], readThrows := true, writeThrows := true } }

/-- A page on which storage can be read but every write throws. -/
def readOnlyPage : Page :=
  { body := [], created := 0, timers := [],
    localStorage := { items := [], readThrows := false, writeThrows := true } }

/-- The run "construct, then `dismiss` the element just rendered, then let the
timer of `dismiss` expire"; the rendered element is the one created with
index `p.created`. -/
def showThenDismiss (options : OptionsArg) (p : Page) : Page × Completion :=
  fireTimer (dismissTimer (mergeOptions options) p.created)
    (dismiss (mergeOptions options) p.created (construct options p).1)

end Announcement

/-! ## pr-273/assets/javascripts/scroll-effects.js -/

namespace FrameCoalescing

/-- The one closure this script passes to `requestAnimationFrame`. -/
inductive FrameCallback where
  /-- The closure `() => { updateScrollEffects(); ticking = false; }` -/
  | scrollUpdate
  deriving DecidableEq, Repr

/-- The variables of the listener that scheduling depends on, with two
counters of the runs of `updateScrollEffects` (its style writes are left out). -/
structure State where
  ticking : Bool
  /-- callbacks passed to `requestAnimationFrame` and not yet run -/
  frameQueue : List FrameCallback
  /-- runs of `updateScrollEffects` made from a frame callback -/
  frameUpdates : Nat
  /-- runs of `updateScrollEffects` made by a direct call -/
  directUpdates : Nat
  deriving DecidableEq, Repr

/-- The function `handleScroll` of pr-273. -/
def handleScroll (s : State) : State :=
  if !s.ticking then
    { s with frameQueue := s.frameQueue ++ [.scrollUpdate], ticking := true }
  else s

/-- The frame callback: `updateScrollEffects(); ticking = false;`. -/
def runFrameCallback : FrameCallback → State → State
  | .scrollUpdate, s => { s with frameUpdates := s.frameUpdates + 1, ticking := false }

/-- A rendering frame: the callbacks queued so far run in order; what they
queue waits for the next frame. -/
def runFrame (s : State) : State :=
  s.frameQueue.foldl (fun st cb => runFrameCallback cb st) { s with frameQueue := [] }

/-- A direct call `updateScrollEffects()` (first call, `visibilitychange`). -/
def directUpdate (s : State) : State :=
  { s with directUpdates := s.directUpdates + 1 }

inductive Event where
  /-- a `scroll` event is delivered to `handleScroll` -/
  | scroll
  /-- the browser renders a frame -/
  | frame
  /-- the event `visibilitychange` with the document visible -/
  | visible
  deriving DecidableEq, Repr

def step (s : State) : Event → State
  | .scroll => handleScroll s
  | .frame => runFrame s
  | .visible => directUpdate s

def run (events : List Event) (s : State) : State :=
  events.foldl step s

/-- State when the `DOMContentLoaded` listener returns: `ticking = false`,
nothing queued, one direct run of `updateScrollEffects` made. -/
def loaded : State :=
  { ticking := false, frameQueue := [], frameUpdates := 0, directUpdates := 1 }

/-- Scheduling invariant: either nothing is queued and `ticking` is false, or
exactly one callback is queued and `ticking` is true. -/
def Coalesced (s : State) : Prop :=
  (s.ticking = false ∧ s.frameQueue = []) ∨
  (s.ticking = true ∧ s.frameQueue = [.scrollUpdate])

instance (s : State) : Decidable (Coalesced s) := by
  unfold Coalesced
  infer_instance

end FrameCoalescing

/-! ### Theorems: hero fade mapper -/

namespace HeroFade

theorem scrollTop_viewportAt (s : ℚ) : scrollTop (viewportAt s) = s := by
  unfold scrollTop viewportAt
  split <;> rfl

/-- Effect of `handleScroll` in its first branch: hero image and title are
reset, the content block is not assigned. -/
theorem handleScroll_of_le_fadePoint (w : Viewport) (d : Dom) (h : scrollTop w ≤ 50) :
    handleScroll w d =
      { heroImage := { d.heroImage with opacity := some 1, transform := .scale (105 / 100) }
        mainTitle := d.mainTitle.map fun t =>
          { t with opacity := some 1, transform := .translateZero }
        heroContent := d.heroContent } := by
  simp [handleScroll, fadePoint, h]

/-- Effect of `handleScroll` in its middle branch, `Math.max` still in place. -/
theorem handleScroll_of_mid (w : Viewport) (d : Dom) (h1 : 50 < scrollTop w)
    (h2 : scrollTop w ≤ 300) :
    handleScroll w d =
      { heroImage :=
          { d.heroImage with
            opacity := some (max 0 (1 - fadePercentage (scrollTop w)))
            transform :=
              .scaleTranslateUp (105 / 100 - fadePercentage (scrollTop w) * (5 / 100))
                (fadePercentage (scrollTop w) * 30) }
        mainTitle := d.mainTitle.map fun t =>
          { t with
            opacity := some (max 0 (1 - fadePercentage (scrollTop w) * (15 / 10)))
            transform := .translateUp (fadePercentage (scrollTop w) * 20) }
        heroContent := d.heroContent.map fun c =>
          { c with opacity := some (max 0 (1 - fadePercentage (scrollTop w) * (12 / 10))) } } := by
  have h3 : ¬ scrollTop w ≤ 50 := not_le.mpr h1
  simp [handleScroll, fadePoint, maxFadeScroll, h2, h3]

/-- Effect of `handleScroll` in its last branch. -/
theorem handleScroll_of_gt_max (w : Viewport) (d : Dom) (h : 300 < scrollTop w) :
    handleScroll w d =
      { heroImage := { d.heroImage with opacity := some 0, transform := .scaleTranslateUp 1 30 }
        mainTitle := d.mainTitle.map fun t =>
          { t with opacity := some 0, transform := .translateUp 20 }
        heroContent := d.heroContent.map fun c => { c with opacity := some 0 } } := by
  have h3 : ¬ scrollTop w ≤ 50 := by linarith
  have h4 : ¬ scrollTop w ≤ 300 := not_le.mpr h
  simp [handleScroll, fadePoint, maxFadeScroll, h3, h4]

theorem fadePercentage_eq (s : ℚ) : fadePercentage s = (s - 50) / 250 := by
  unfold fadePercentage fadePoint maxFadeScroll
  norm_num

theorem fadePercentage_pos (s : ℚ) (h : 50 < s) : 0 < fadePercentage s := by
  rw [fadePercentage_eq]
  apply div_pos <;> linarith

theorem fadePercentage_le_one (s : ℚ) (h : s ≤ 300) : fadePercentage s ≤ 1 := by
  rw [fadePercentage_eq, div_le_one (by norm_num)]
  linarith

theorem fadePercentage_lt (s t : ℚ) (h : s < t) : fadePercentage s < fadePercentage t := by
  rw [fadePercentage_eq, fadePercentage_eq]
  apply div_lt_div_of_pos_right _ (by norm_num)
  linarith

/-- C1 (the code departs from the claim): the page is loaded at the top,
scrolled to 400 px and scrolled back to the top.  The last call of
`handleScroll` runs with `scrollTop = 0 <= 50`; hero image and title are
back at their baseline, but the content block keeps the opacity `0` that the
call at 400 px assigned, because the first branch never assigns it. -/
theorem baseline_branch_keeps_content_faded :
    onDOMContentLoaded (viewportAt 0) freshPage = some loadedDom ∧
    scrollTop (viewportAt 0) ≤ 50 ∧
    handleScroll (viewportAt 0) (handleScroll (viewportAt 400) loadedDom) =
      { heroImage := { opacity := some 1, transform := .scale (105 / 100), transition := "" }
        mainTitle := some { opacity := some 1, transform := .translateZero,
                            transition := "opacity 0.4s ease-out, transform 0.4s ease-out" }
        heroContent := some { opacity := some 0, transform := .unset,
                              transition := "opacity 0.4s ease-out" } } := by
  refine ⟨?_, ?_, ?_⟩
  · simp [onDOMContentLoaded, freshPage, loadedDom, handleScroll, scrollTop, viewportAt,
      fadePoint]
  · rw [scrollTop_viewportAt]; norm_num
  · rw [handleScroll_of_le_fadePoint _ _ (by rw [scrollTop_viewportAt]; norm_num),
      handleScroll_of_gt_max _ _ (by rw [scrollTop_viewportAt]; norm_num)]
    simp [loadedDom]

/-- C2: for every scroll sample `s >= 300` (the boundary `s = 300` goes
through the interpolation branch) and every prior style state, `handleScroll`
leaves the hero image with opacity 0 and `scale(1) translateY(-30px)`, the
title (when present) with opacity 0 and `translateY(-20px)`, and the content
block (when present) with opacity 0. -/
theorem handleScroll_terminal (w : Viewport) (d : Dom) (h : 300 ≤ scrollTop w) :
    handleScroll w d =
      { heroImage := { d.heroImage with opacity := some 0, transform := .scaleTranslateUp 1 30 }
        mainTitle := d.mainTitle.map fun t =>
          { t with opacity := some 0, transform := .translateUp 20 }
        heroContent := d.heroContent.map fun c => { c with opacity := some 0 } } := by
  rcases h.eq_or_lt with h300 | hgt
  · rw [handleScroll_of_mid w d (by rw [← h300]; norm_num) (le_of_eq h300.symm),
      fadePercentage_eq, ← h300]
    norm_num
  · exact handleScroll_of_gt_max w d hgt

/-- Instance of C2 at the boundary sample `s = 300`. -/
theorem handleScroll_terminal_witness :
    (300 : ℚ) ≤ scrollTop (viewportAt 300) ∧
    handleScroll (viewportAt 300) loadedDom =
      { heroImage := { opacity := some 0, transform := .scaleTranslateUp 1 30, transition := "" }
        mainTitle := some { opacity := some 0, transform := .translateUp 20,
                            transition := "opacity 0.4s ease-out, transform 0.4s ease-out" }
        heroContent := some { opacity := some 0, transform := .unset,
                              transition := "opacity 0.4s ease-out" } } := by
  have h : (300 : ℚ) ≤ scrollTop (viewportAt 300) := by rw [scrollTop_viewportAt]
  refine ⟨h, ?_⟩
  rw [handleScroll_terminal (viewportAt 300) loadedDom h]
  simp [loadedDom]

/-- C3 (amended): with the arithmetic taken over exact rationals, for every
scroll sample with `50 < s <= 300`, `handleScroll` uses
`p = (s - 50) / 250` and writes hero opacity `1 - p`, hero transform
`scale(1.05 - 0.05 p) translateY(-30 p px)`, title opacity `max(0, 1 - 1.5 p)`,
title transform `translateY(-20 p px)` and content opacity `max(0, 1 - 1.2 p)`
(title and content when present). -/
theorem handleScroll_interpolation (w : Viewport) (d : Dom) (h1 : 50 < scrollTop w)
    (h2 : scrollTop w ≤ 300) :
    fadePercentage (scrollTop w) = (scrollTop w - 50) / 250 ∧
    handleScroll w d =
      { heroImage :=
          { d.heroImage with
            opacity := some (1 - fadePercentage (scrollTop w))
            transform :=
              .scaleTranslateUp (105 / 100 - 5 / 100 * fadePercentage (scrollTop w))
                (30 * fadePercentage (scrollTop w)) }
        mainTitle := d.mainTitle.map fun t =>
          { t with
            opacity := some (max 0 (1 - 15 / 10 * fadePercentage (scrollTop w)))
            transform := .translateUp (20 * fadePercentage (scrollTop w)) }
        heroContent := d.heroContent.map fun c =>
          { c with opacity := some (max 0 (1 - 12 / 10 * fadePercentage (scrollTop w))) } } := by
  refine ⟨fadePercentage_eq _, ?_⟩
  have hp : fadePercentage (scrollTop w) ≤ 1 := fadePercentage_le_one _ h2
  rw [handleScroll_of_mid w d h1 h2, max_eq_right (by linarith)]
  simp only [mul_comm]

/-- Instance of the amended C3 at `s = 175`, in exact arithmetic: `p = 1/2`,
hero opacity `1/2`, hero scale `1.025`, title opacity `1/4`. -/
theorem handleScroll_interpolation_witness :
    (50 : ℚ) < scrollTop (viewportAt 175) ∧ scrollTop (viewportAt 175) ≤ 300 ∧
    fadePercentage (scrollTop (viewportAt 175)) = 1 / 2 ∧
    handleScroll (viewportAt 175) loadedDom =
      { heroImage := { opacity := some (1 / 2), transform := .scaleTranslateUp (1025 / 1000) 15,
                       transition := "" }
        mainTitle := some { opacity := some (1 / 4), transform := .translateUp 10,
                            transition := "opacity 0.4s ease-out, transform 0.4s ease-out" }
        heroContent := some { opacity := some (2 / 5), transform := .unset,
                              transition := "opacity 0.4s ease-out" } } := by
  have h1 : (50 : ℚ) < scrollTop (viewportAt 175) := by rw [scrollTop_viewportAt]; norm_num
  have h2 : scrollTop (viewportAt 175) ≤ 300 := by rw [scrollTop_viewportAt]; norm_num
  have hp : fadePercentage (scrollTop (viewportAt 175)) = 1 / 2 := by
    rw [scrollTop_viewportAt, fadePercentage_eq]; norm_num
  refine ⟨h1, h2, hp, ?_⟩
  rw [(handleScroll_interpolation (viewportAt 175) loadedDom h1 h2).2, hp]
  norm_num [loadedDom]

/-- C4 as stated fails, already in exact arithmetic: at `s1 = 250 < s2 = 260`,
both inside `(50, 300)`,
`handleScroll` assigns the title opacity `0` both times (`Math.max(0, _)`
has clamped `1 - 1.5 p`), so the opacity at `s2` is not strictly smaller. -/
theorem title_fade_not_strict :
    (50 : ℚ) < scrollTop (viewportAt 250) ∧
    scrollTop (viewportAt 250) < scrollTop (viewportAt 260) ∧
    scrollTop (viewportAt 260) < 300 ∧
    ¬ ∃ o1 o2 : ℚ,
        (handleScroll (viewportAt 250) loadedDom).mainTitle.bind Style.opacity = some o1 ∧
        (handleScroll (viewportAt 260) loadedDom).mainTitle.bind Style.opacity = some o2 ∧
        o2 < o1 := by
  have e250 : (handleScroll (viewportAt 250) loadedDom).mainTitle.bind Style.opacity
      = some 0 := by
    rw [handleScroll_of_mid _ _ (by rw [scrollTop_viewportAt]; norm_num)
      (by rw [scrollTop_viewportAt]; norm_num), scrollTop_viewportAt, fadePercentage_eq]
    norm_num [loadedDom]
  have e260 : (handleScroll (viewportAt 260) loadedDom).mainTitle.bind Style.opacity
      = some 0 := by
    rw [handleScroll_of_mid _ _ (by rw [scrollTop_viewportAt]; norm_num)
      (by rw [scrollTop_viewportAt]; norm_num), scrollTop_viewportAt, fadePercentage_eq]
    norm_num [loadedDom]
  refine ⟨?_, ?_, ?_, ?_⟩
  · rw [scrollTop_viewportAt]; norm_num
  · rw [scrollTop_viewportAt, scrollTop_viewportAt]; norm_num
  · rw [scrollTop_viewportAt]; norm_num
  · rintro ⟨o1, o2, ho1, ho2, hlt⟩
    rw [e250] at ho1
    rw [e260] at ho2
    cases ho1
    cases ho2
    exact lt_irrefl _ hlt

/-- C4 (amended): with the arithmetic taken over exact rationals, for
samples `50 < s1 < s2 < 300` and any prior styles, the
hero image opacity assigned at `s2` is strictly smaller than the one assigned
at `s1`; the title and content opacities assigned at `s2` are never larger
than those assigned at `s1`, and strictly smaller whenever the opacity
assigned at `s1` is still positive. -/
theorem handleScroll_fade_monotone (w1 w2 : Viewport) (d1 d2 : Dom)
    (h1 : 50 < scrollTop w1) (h12 : scrollTop w1 < scrollTop w2) (h2 : scrollTop w2 < 300) :
    (∃ o1 o2 : ℚ, (handleScroll w1 d1).heroImage.opacity = some o1 ∧
        (handleScroll w2 d2).heroImage.opacity = some o2 ∧ o2 < o1) ∧
    (d1.mainTitle.isSome = true → d2.mainTitle.isSome = true →
      ∃ o1 o2 : ℚ, (handleScroll w1 d1).mainTitle.bind Style.opacity = some o1 ∧
        (handleScroll w2 d2).mainTitle.bind Style.opacity = some o2 ∧
        o2 ≤ o1 ∧ (0 < o1 → o2 < o1)) ∧
    (d1.heroContent.isSome = true → d2.heroContent.isSome = true →
      ∃ o1 o2 : ℚ, (handleScroll w1 d1).heroContent.bind Style.opacity = some o1 ∧
        (handleScroll w2 d2).heroContent.bind Style.opacity = some o2 ∧
        o2 ≤ o1 ∧ (0 < o1 → o2 < o1)) := by
  have hlt := fadePercentage_lt _ _ h12
  have hp1 : fadePercentage (scrollTop w1) ≤ 1 := fadePercentage_le_one _ (by linarith)
  have hp2 : fadePercentage (scrollTop w2) ≤ 1 := fadePercentage_le_one _ (by linarith)
  rw [handleScroll_of_mid w1 d1 h1 (by linarith),
    handleScroll_of_mid w2 d2 (by linarith) (by linarith)]
  refine ⟨⟨_, _, rfl, rfl, ?_⟩, ?_, ?_⟩
  · rw [max_eq_right (by linarith), max_eq_right (by linarith)]
    linarith
  · intro e1 e2
    obtain ⟨t1, ht1⟩ := Option.isSome_iff_exists.mp e1
    obtain ⟨t2, ht2⟩ := Option.isSome_iff_exists.mp e2
    refine ⟨max 0 (1 - fadePercentage (scrollTop w1) * (15 / 10)),
      max 0 (1 - fadePercentage (scrollTop w2) * (15 / 10)),
      by simp [ht1], by simp [ht2], ?_, ?_⟩
    · exact max_le_max le_rfl (by linarith)
    · intro hpos
      have hpos1 : 0 < 1 - fadePercentage (scrollTop w1) * (15 / 10) := by
        rcases lt_max_iff.mp hpos with h | h
        · exact absurd h (lt_irrefl _)
        · exact h
      rw [max_eq_right hpos1.le]
      exact max_lt hpos1 (by linarith)
  · intro e1 e2
    obtain ⟨t1, ht1⟩ := Option.isSome_iff_exists.mp e1
    obtain ⟨t2, ht2⟩ := Option.isSome_iff_exists.mp e2
    refine ⟨max 0 (1 - fadePercentage (scrollTop w1) * (12 / 10)),
      max 0 (1 - fadePercentage (scrollTop w2) * (12 / 10)),
      by simp [ht1], by simp [ht2], ?_, ?_⟩
    · exact max_le_max le_rfl (by linarith)
    · intro hpos
      have hpos1 : 0 < 1 - fadePercentage (scrollTop w1) * (12 / 10) := by
        rcases lt_max_iff.mp hpos with h | h
        · exact absurd h (lt_irrefl _)
        · exact h
      rw [max_eq_right hpos1.le]
      exact max_lt hpos1 (by linarith)

/-- Instance of the amended C4 at `s1 = 100`, `s2 = 200` with all targets
present. -/
theorem handleScroll_fade_monotone_witness :
    ((50 : ℚ) < scrollTop (viewportAt 100) ∧
      scrollTop (viewportAt 100) < scrollTop (viewportAt 200) ∧
      scrollTop (viewportAt 200) < 300) ∧
    (∃ o1 o2 : ℚ, (handleScroll (viewportAt 100) loadedDom).heroImage.opacity = some o1 ∧
        (handleScroll (viewportAt 200) loadedDom).heroImage.opacity = some o2 ∧ o2 < o1) ∧
    (∃ o1 o2 : ℚ,
        (handleScroll (viewportAt 100) loadedDom).mainTitle.bind Style.opacity = some o1 ∧
        (handleScroll (viewportAt 200) loadedDom).mainTitle.bind Style.opacity = some o2 ∧
        o2 ≤ o1 ∧ (0 < o1 → o2 < o1)) ∧
    (∃ o1 o2 : ℚ,
        (handleScroll (viewportAt 100) loadedDom).heroContent.bind Style.opacity = some o1 ∧
        (handleScroll (viewportAt 200) loadedDom).heroContent.bind Style.opacity = some o2 ∧
        o2 ≤ o1 ∧ (0 < o1 → o2 < o1)) := by
  have ha : (50 : ℚ) < scrollTop (viewportAt 100) := by rw [scrollTop_viewportAt]; norm_num
  have hb : scrollTop (viewportAt 100) < scrollTop (viewportAt 200) := by
    rw [scrollTop_viewportAt, scrollTop_viewportAt]; norm_num
  have hc : scrollTop (viewportAt 200) < 300 := by rw [scrollTop_viewportAt]; norm_num
  have key := handleScroll_fade_monotone (viewportAt 100) (viewportAt 200) loadedDom loadedDom
    ha hb hc
  exact ⟨⟨ha, hb, hc⟩, key.1, key.2.1 rfl rfl, key.2.2 rfl rfl⟩

/-- C5: for every scroll sample (non-negative or not) and every prior style
state, the fade fraction of the interpolation branch lies in `[0, 1]`, and
every value `handleScroll` writes stays between baseline and terminal: hero
opacity in `[0, 1]`, hero scale in `[1, 1.05]`, hero upward offset in
`[0, 30]`, title opacity in `[0, 1]` and title upward offset in `[0, 20]`;
the content opacity is either not written (first branch) or in `[0, 1]`. -/
theorem handleScroll_no_overshoot (w : Viewport) (d : Dom) :
    (50 < scrollTop w → scrollTop w ≤ 300 →
      0 ≤ fadePercentage (scrollTop w) ∧ fadePercentage (scrollTop w) ≤ 1) ∧
    (∃ o : ℚ, (handleScroll w d).heroImage.opacity = some o ∧ 0 ≤ o ∧ o ≤ 1) ∧
    (1 ≤ (handleScroll w d).heroImage.transform.scaleOf ∧
      (handleScroll w d).heroImage.transform.scaleOf ≤ 105 / 100) ∧
    (0 ≤ (handleScroll w d).heroImage.transform.upOf ∧
      (handleScroll w d).heroImage.transform.upOf ≤ 30) ∧
    (∀ t : Style, (handleScroll w d).mainTitle = some t →
      (∃ o : ℚ, t.opacity = some o ∧ 0 ≤ o ∧ o ≤ 1) ∧
      0 ≤ t.transform.upOf ∧ t.transform.upOf ≤ 20) ∧
    (∀ c : Style, (handleScroll w d).heroContent = some c →
      (scrollTop w ≤ 50 ∧ d.heroContent = some c) ∨
      ∃ o : ℚ, c.opacity = some o ∧ 0 ≤ o ∧ o ≤ 1) := by
  refine ⟨fun h1 h2 => ⟨(fadePercentage_pos _ h1).le, fadePercentage_le_one _ h2⟩, ?_⟩
  rcases le_or_lt (scrollTop w) 50 with hlow | hlow
  · rw [handleScroll_of_le_fadePoint w d hlow]
    refine ⟨⟨1, rfl, by norm_num, le_rfl⟩, by norm_num [Transform.scaleOf],
      by norm_num [Transform.upOf], ?_, ?_⟩
    · intro t ht
      obtain ⟨t0, -, rfl⟩ := Option.map_eq_some'.mp ht
      exact ⟨⟨1, rfl, by norm_num, le_rfl⟩, by norm_num [Transform.upOf]⟩
    · intro c hc
      exact Or.inl ⟨hlow, hc⟩
  · rcases le_or_lt (scrollTop w) 300 with hmid | hhigh
    · have p0 : 0 < fadePercentage (scrollTop w) := fadePercentage_pos _ hlow
      have p1 : fadePercentage (scrollTop w) ≤ 1 := fadePercentage_le_one _ hmid
      rw [handleScroll_of_mid w d hlow hmid]
      refine ⟨⟨_, rfl, le_max_left _ _, max_le (by norm_num) (by linarith)⟩,
        ⟨by simp only [Transform.scaleOf]; linarith, by simp only [Transform.scaleOf]; linarith⟩,
        ⟨by simp only [Transform.upOf]; linarith, by simp only [Transform.upOf]; linarith⟩,
        ?_, ?_⟩
      · intro t ht
        obtain ⟨t0, -, rfl⟩ := Option.map_eq_some'.mp ht
        exact ⟨⟨_, rfl, le_max_left _ _, max_le (by norm_num) (by linarith)⟩,
          by simp only [Transform.upOf]; linarith, by simp only [Transform.upOf]; linarith⟩
      · intro c hc
        obtain ⟨c0, -, rfl⟩ := Option.map_eq_some'.mp hc
        exact Or.inr ⟨_, rfl, le_max_left _ _, max_le (by norm_num) (by linarith)⟩
    · rw [handleScroll_of_gt_max w d hhigh]
      refine ⟨⟨0, rfl, le_rfl, by norm_num⟩, by norm_num [Transform.scaleOf],
        by norm_num [Transform.upOf], ?_, ?_⟩
      · intro t ht
        obtain ⟨t0, -, rfl⟩ := Option.map_eq_some'.mp ht
        exact ⟨⟨0, rfl, le_rfl, by norm_num⟩, by norm_num [Transform.upOf]⟩
      · intro c hc
        obtain ⟨c0, -, rfl⟩ := Option.map_eq_some'.mp hc
        exact Or.inr ⟨0, rfl, le_rfl, by norm_num⟩

/-- C6: for every prior style state and every scroll sample, running
`handleScroll` a second time with the same sample leaves every inline style
(opacity, transform, transition of hero image, title and content block)
exactly as the first run left it. -/
theorem handleScroll_idempotent (w : Viewport) (d : Dom) :
    handleScroll w (handleScroll w d) = handleScroll w d := by
  rcases le_or_lt (scrollTop w) 50 with hlow | hlow
  · rw [handleScroll_of_le_fadePoint w _ hlow, handleScroll_of_le_fadePoint w d hlow]
    cases d.mainTitle <;> rfl
  · rcases le_or_lt (scrollTop w) 300 with hmid | hhigh
    · rw [handleScroll_of_mid w _ hlow hmid, handleScroll_of_mid w d hlow hmid]
      cases d.mainTitle <;> cases d.heroContent <;> rfl
    · rw [handleScroll_of_gt_max w _ hhigh, handleScroll_of_gt_max w d hhigh]
      cases d.mainTitle <;> cases d.heroContent <;> rfl

/-! ### Theorems: the mapper in binary64 -/

theorem roundHalfEven_eq (y : ℚ) (k : ℤ) (h1 : (k : ℚ) - 1 / 2 < y) (h2 : y < k + 1 / 2) :
    roundHalfEven y = k := by
  unfold roundHalfEven
  rcases le_or_lt (k : ℚ) y with hky | hky
  · have hf : ⌊y⌋ = k := Int.floor_eq_iff.mpr ⟨hky, by linarith⟩
    rw [hf, if_pos (by linarith)]
  · have hf : ⌊y⌋ = k - 1 :=
      Int.floor_eq_iff.mpr ⟨by push_cast; linarith, by push_cast; linarith⟩
    rw [hf, if_neg (by push_cast; linarith), if_pos (by push_cast; linarith)]
    ring

theorem log_two_eq (x : ℚ) (e : ℤ) (h1 : (2 : ℚ) ^ e ≤ x) (h2 : x < 2 ^ (e + 1)) :
    Int.log 2 x = e := by
  have hpos : 0 < x := lt_of_lt_of_le (by positivity) h1
  apply le_antisymm
  · have h := (Int.lt_zpow_iff_log_lt (by norm_num : 1 < 2) hpos).mp (by exact_mod_cast h2)
    omega
  · exact (Int.zpow_le_iff_le_log (by norm_num : 1 < 2) hpos).mp (by exact_mod_cast h1)

/-- How `f64` is evaluated at a positive number: `e` is its binary exponent
and `k` the integer nearest to it in units of `2 ^ (e - 52)`, no tie. -/
theorem f64_of_pos (x v : ℚ) (e k : ℤ) (h1 : (2 : ℚ) ^ e ≤ x) (h2 : x < 2 ^ (e + 1))
    (hk1 : (k : ℚ) - 1 / 2 < x / 2 ^ (e - 52)) (hk2 : x / 2 ^ (e - 52) < k + 1 / 2)
    (hv : v = k * 2 ^ (e - 52)) : f64 x = v := by
  have hpos : 0 < x := lt_of_lt_of_le (by positivity) h1
  unfold f64
  rw [if_neg hpos.ne.symm, abs_of_pos hpos, log_two_eq x e h1 h2, roundHalfEven_eq _ k hk1 hk2, hv]

/-- Effect of `handleScrollBinary64` in its middle branch. -/
theorem handleScrollBinary64_of_mid (w : Viewport) (d : Dom) (h1 : 50 < scrollTop w)
    (h2 : scrollTop w ≤ 300) :
    handleScrollBinary64 w d =
      { heroImage :=
          { d.heroImage with
            opacity := some (max 0 (f64 (1 - fadePercentageBinary64 (scrollTop w))))
            transform :=
              .scaleTranslateUp
                (f64 (f64 (105 / 100) - f64 (fadePercentageBinary64 (scrollTop w) * f64 (5 / 100))))
                (f64 (fadePercentageBinary64 (scrollTop w) * 30)) }
        mainTitle := d.mainTitle.map fun t =>
          { t with
            opacity :=
              some (max 0 (f64 (1 - f64 (fadePercentageBinary64 (scrollTop w) * (15 / 10)))))
            transform := .translateUp (f64 (fadePercentageBinary64 (scrollTop w) * 20)) }
        heroContent := d.heroContent.map fun c =>
          { c with
            opacity :=
              some (max 0
                (f64 (1 - f64 (fadePercentageBinary64 (scrollTop w) * f64 (12 / 10))))) } } := by
  have h3 : ¬ scrollTop w ≤ 50 := not_le.mpr h1
  simp [handleScrollBinary64, fadePoint, maxFadeScroll, h2, h3]

theorem fadePercentageBinary64_175 : fadePercentageBinary64 175 = 1 / 2 := by
  have a : f64 ((175 : ℚ) - 50) = 125 :=
    f64_of_pos _ _ 6 (125 * 2 ^ 46) (by norm_num) (by norm_num) (by norm_num) (by norm_num)
      (by norm_num)
  have b : f64 ((300 : ℚ) - 50) = 250 :=
    f64_of_pos _ _ 7 (250 * 2 ^ 45) (by norm_num) (by norm_num) (by norm_num) (by norm_num)
      (by norm_num)
  have c : f64 ((125 : ℚ) / 250) = 1 / 2 :=
    f64_of_pos _ _ (-1) (2 ^ 52) (by norm_num) (by norm_num) (by norm_num) (by norm_num)
      (by norm_num)
  unfold fadePercentageBinary64 fadePoint maxFadeScroll
  rw [a, b, c]

theorem f64_literal_105 : f64 (105 / 100) = 4728779608739021 / 4503599627370496 :=
  f64_of_pos _ _ 0 4728779608739021 (by norm_num) (by norm_num) (by norm_num) (by norm_num)
    (by norm_num)

theorem f64_literal_005 : f64 (5 / 100) = 3602879701896397 / 72057594037927936 :=
  f64_of_pos _ _ (-5) 7205759403792794 (by norm_num) (by norm_num) (by norm_num) (by norm_num)
    (by norm_num)

theorem f64_literal_1025 : f64 (1025 / 1000) = 4616189618054758 / 4503599627370496 :=
  f64_of_pos _ _ 0 4616189618054758 (by norm_num) (by norm_num) (by norm_num) (by norm_num)
    (by norm_num)

/-- The scale `1.05 - (fadePercentage * 0.05)` in binary64 at `fadePercentage = 0.5`. -/
theorem binary64_scale_half :
    f64 (f64 (105 / 100) - f64 (1 / 2 * f64 (5 / 100)))
      = 4616189618054759 / 4503599627370496 := by
  have m : f64 ((1 : ℚ) / 2 * (3602879701896397 / 72057594037927936))
      = 3602879701896397 / 144115188075855872 :=
    f64_of_pos _ _ (-6) 7205759403792794 (by norm_num) (by norm_num) (by norm_num)
      (by norm_num) (by norm_num)
  have r : f64 ((4728779608739021 : ℚ) / 4503599627370496
        - 3602879701896397 / 144115188075855872) = 4616189618054759 / 4503599627370496 :=
    f64_of_pos _ _ 0 4616189618054759 (by norm_num) (by norm_num) (by norm_num)
      (by norm_num) (by norm_num)
  rw [f64_literal_105, f64_literal_005, m, r]

/-- C3 as stated fails in JavaScript's arithmetic: at `s = 175` the
binary64 run has `p = 0.5`, hero opacity `0.5` and title opacity `0.25`, but
the hero scale it writes is `4616189618054759 / 2^52`, printed
`1.0250000000000001`: it is neither `1.05 - 0.05 p = 1.025` nor the binary64
number that the text `1.025` denotes. -/
theorem binary64_scale_at_175_not_exact :
    ((50 : ℚ) < scrollTop (viewportAt 175) ∧ scrollTop (viewportAt 175) ≤ 300) ∧
    fadePercentageBinary64 (scrollTop (viewportAt 175)) = 1 / 2 ∧
    handleScrollBinary64 (viewportAt 175) loadedDom =
      { heroImage :=
          { opacity := some (1 / 2)
            transform := .scaleTranslateUp (4616189618054759 / 4503599627370496) 15
            transition := "" }
        mainTitle := some { opacity := some (1 / 4), transform := .translateUp 10,
                            transition := "opacity 0.4s ease-out, transform 0.4s ease-out" }
        heroContent := some { opacity := some (3602879701896397 / 9007199254740992),
                              transform := .unset, transition := "opacity 0.4s ease-out" } } ∧
    (4616189618054759 / 4503599627370496 : ℚ) ≠ 105 / 100 - 5 / 100 * fadePercentage 175 ∧
    (4616189618054759 / 4503599627370496 : ℚ) ≠ f64 (1025 / 1000) := by
  have h1 : (50 : ℚ) < scrollTop (viewportAt 175) := by rw [scrollTop_viewportAt]; norm_num
  have h2 : scrollTop (viewportAt 175) ≤ 300 := by rw [scrollTop_viewportAt]; norm_num
  have a1 : f64 ((1 : ℚ) - 1 / 2) = 1 / 2 :=
    f64_of_pos _ _ (-1) (2 ^ 52) (by norm_num) (by norm_num) (by norm_num) (by norm_num)
      (by norm_num)
  have a2 : f64 ((1 : ℚ) / 2 * 30) = 15 :=
    f64_of_pos _ _ 3 (15 * 2 ^ 49) (by norm_num) (by norm_num) (by norm_num) (by norm_num)
      (by norm_num)
  have a3 : f64 ((1 : ℚ) / 2 * (15 / 10)) = 3 / 4 :=
    f64_of_pos _ _ (-1) (3 * 2 ^ 51) (by norm_num) (by norm_num) (by norm_num) (by norm_num)
      (by norm_num)
  have a4 : f64 ((1 : ℚ) - 3 / 4) = 1 / 4 :=
    f64_of_pos _ _ (-2) (2 ^ 52) (by norm_num) (by norm_num) (by norm_num) (by norm_num)
      (by norm_num)
  have a5 : f64 ((1 : ℚ) / 2 * 20) = 10 :=
    f64_of_pos _ _ 3 (10 * 2 ^ 49) (by norm_num) (by norm_num) (by norm_num) (by norm_num)
      (by norm_num)
  have a6 : f64 ((12 : ℚ) / 10) = 5404319552844595 / 4503599627370496 :=
    f64_of_pos _ _ 0 5404319552844595 (by norm_num) (by norm_num) (by norm_num) (by norm_num)
      (by norm_num)
  have a7 : f64 ((1 : ℚ) / 2 * (5404319552844595 / 4503599627370496))
      = 5404319552844595 / 9007199254740992 :=
    f64_of_pos _ _ (-1) 5404319552844595 (by norm_num) (by norm_num) (by norm_num)
      (by norm_num) (by norm_num)
  have a8 : f64 ((1 : ℚ) - 5404319552844595 / 9007199254740992)
      = 3602879701896397 / 9007199254740992 :=
    f64_of_pos _ _ (-2) 7205759403792794 (by norm_num) (by norm_num) (by norm_num)
      (by norm_num) (by norm_num)
  refine ⟨⟨h1, h2⟩, ?_, ?_, ?_, ?_⟩
  · rw [scrollTop_viewportAt, fadePercentageBinary64_175]
  · rw [handleScrollBinary64_of_mid _ _ h1 h2, scrollTop_viewportAt,
      fadePercentageBinary64_175, binary64_scale_half, a1, a2, a3, a4, a5, a6, a7, a8]
    norm_num [loadedDom]
  · rw [fadePercentage_eq]; norm_num
  · rw [f64_literal_1025]; norm_num

/-- In binary64 the fade is not strict between neighbouring numbers: `60`
and `60 + 2^-47` (the next binary64 number) both get the hero opacity
`1080863910568919 / 2^50`, printed `0.96`. -/
theorem binary64_hero_fade_tie :
    ((50 : ℚ) < scrollTop (viewportAt 60) ∧
      scrollTop (viewportAt 60) < scrollTop (viewportAt (60 + 1 / 2 ^ 47)) ∧
      scrollTop (viewportAt (60 + 1 / 2 ^ 47)) < 300) ∧
    (handleScrollBinary64 (viewportAt 60) loadedDom).heroImage.opacity
      = some (1080863910568919 / 1125899906842624) ∧
    (handleScrollBinary64 (viewportAt (60 + 1 / 2 ^ 47)) loadedDom).heroImage.opacity
      = some (1080863910568919 / 1125899906842624) := by
  have b : f64 ((300 : ℚ) - 50) = 250 :=
    f64_of_pos _ _ 7 (250 * 2 ^ 45) (by norm_num) (by norm_num) (by norm_num) (by norm_num)
      (by norm_num)
  have p1 : fadePercentageBinary64 60 = 5764607523034235 / 144115188075855872 := by
    have a : f64 ((60 : ℚ) - 50) = 10 :=
      f64_of_pos _ _ 3 (10 * 2 ^ 49) (by norm_num) (by norm_num) (by norm_num) (by norm_num)
        (by norm_num)
    have c : f64 ((10 : ℚ) / 250) = 5764607523034235 / 144115188075855872 :=
      f64_of_pos _ _ (-5) 5764607523034235 (by norm_num) (by norm_num) (by norm_num)
        (by norm_num) (by norm_num)
    unfold fadePercentageBinary64 fadePoint maxFadeScroll
    rw [a, b, c]
  have p2 : fadePercentageBinary64 (60 + 1 / 2 ^ 47)
      = 5764607523034239 / 144115188075855872 := by
    have a : f64 ((60 : ℚ) + 1 / 2 ^ 47 - 50) = 1407374883553281 / 140737488355328 :=
      f64_of_pos _ _ 3 5629499534213124 (by norm_num) (by norm_num) (by norm_num)
        (by norm_num) (by norm_num)
    have c : f64 ((1407374883553281 : ℚ) / 140737488355328 / 250)
        = 5764607523034239 / 144115188075855872 :=
      f64_of_pos _ _ (-5) 5764607523034239 (by norm_num) (by norm_num) (by norm_num)
        (by norm_num) (by norm_num)
    unfold fadePercentageBinary64 fadePoint maxFadeScroll
    rw [a, b, c]
  have o1 : f64 ((1 : ℚ) - 5764607523034235 / 144115188075855872)
      = 1080863910568919 / 1125899906842624 :=
    f64_of_pos _ _ (-1) 8646911284551352 (by norm_num) (by norm_num) (by norm_num)
      (by norm_num) (by norm_num)
  have o2 : f64 ((1 : ℚ) - 5764607523034239 / 144115188075855872)
      = 1080863910568919 / 1125899906842624 :=
    f64_of_pos _ _ (-1) 8646911284551352 (by norm_num) (by norm_num) (by norm_num)
      (by norm_num) (by norm_num)
  have h60 : (50 : ℚ) < scrollTop (viewportAt 60) := by rw [scrollTop_viewportAt]; norm_num
  have h60b : scrollTop (viewportAt 60) ≤ 300 := by rw [scrollTop_viewportAt]; norm_num
  have hn : (50 : ℚ) < scrollTop (viewportAt (60 + 1 / 2 ^ 47)) := by
    rw [scrollTop_viewportAt]; norm_num
  have hnb : scrollTop (viewportAt (60 + 1 / 2 ^ 47)) < 300 := by
    rw [scrollTop_viewportAt]; norm_num
  refine ⟨⟨h60, ?_, hnb⟩, ?_, ?_⟩
  · rw [scrollTop_viewportAt, scrollTop_viewportAt]; norm_num
  · rw [handleScrollBinary64_of_mid _ _ h60 h60b, scrollTop_viewportAt, p1, o1]
    norm_num
  · rw [handleScrollBinary64_of_mid _ _ hn hnb.le, scrollTop_viewportAt, p2, o2]
    norm_num

end HeroFade

/-! ### Theorems: announcement widget -/

namespace Announcement

theorem truthy_true : truthy (some "true") = true := by decide

/-- The method `init` when the stored item is falsy: the configured variant is rendered. -/
theorem init_of_falsy (o : Options) (p : Page) (item : Option String)
    (hget : p.localStorage.getItem o.storageKey = .ok item) (hf : truthy item = false) :
    init o p = (if o.type = "badge" then createBadge o p else createModal o p, .normal) := by
  unfold init
  rw [hget]
  by_cases hb : o.type = "badge" <;> simp [hf, hb]

/-- The method `init` when the stored item is truthy: nothing happens. -/
theorem init_of_truthy (o : Options) (p : Page) (item : Option String)
    (hget : p.localStorage.getItem o.storageKey = .ok item) (ht : truthy item = true) :
    init o p = (p, .normal) := by
  unfold init
  rw [hget]
  simp [ht]

/-- The method `init` when reading storage throws: the exception leaves `init`. -/
theorem init_of_read_error (o : Options) (p : Page) (h : p.localStorage.readThrows = true) :
    init o p = (p, .thrown .storageAccess) := by
  simp [init, LocalStorage.getItem, h]

/-- The storage of the page is not touched by rendering. -/
theorem construct_of_absent (options : OptionsArg) (p : Page)
    (hread : p.localStorage.readThrows = false)
    (habsent : p.localStorage.items.lookup (mergeOptions options).storageKey = none) :
    construct options p =
      (if (mergeOptions options).type = "badge" then createBadge (mergeOptions options) p
        else createModal (mergeOptions options) p, .normal) := by
  unfold construct
  apply init_of_falsy _ _ none
  · simp [LocalStorage.getItem, hread, habsent]
  · rfl

/-- What the run `showThenDismiss` leaves when storage works. -/
theorem showThenDismiss_of_absent (options : OptionsArg) (p : Page)
    (hread : p.localStorage.readThrows = false) (hwrite : p.localStorage.writeThrows = false)
    (habsent : p.localStorage.items.lookup (mergeOptions options).storageKey = none) :
    (showThenDismiss options p).2 = .normal ∧
    (∀ e ∈ (showThenDismiss options p).1.body, e.id ≠ p.created) ∧
    (showThenDismiss options p).1.localStorage.readThrows = false ∧
    (showThenDismiss options p).1.localStorage.items.lookup (mergeOptions options).storageKey
      = some "true" := by
  unfold showThenDismiss
  rw [construct_of_absent options p hread habsent]
  by_cases hb : (mergeOptions options).type = "badge"
  · simp [hb, fireTimer, dismissTimer, runCallback, dismiss, createBadge,
      LocalStorage.setItem, hwrite, hread, List.lookup]
    rintro e (⟨-, h⟩ | ⟨-, h⟩) <;> exact h
  · simp [hb, fireTimer, dismissTimer, runCallback, dismiss, createModal,
      LocalStorage.setItem, hwrite, hread, List.lookup]
    rintro e (⟨-, h⟩ | ⟨-, h⟩) <;> exact h

/-- C7 as stated fails: `dismiss` itself stores nothing.  With the flag of
`release-modal-v2` set and the key `release-modal-v3` configured, the badge
is rendered; right after `dismiss` on it (its timer still pending) storage
has no entry under `release-modal-v3`, and a construction with the same key
renders a second badge next to the one marked `dismissing`. -/
theorem dismiss_alone_not_remembered :
    (pageWith [("release-modal-v2", "true")]).localStorage.items.lookup "release-modal-v3"
      = none ∧
    (dismiss (mergeOptions { storageKey := some "release-modal-v3" }) 0
        (construct { storageKey := some "release-modal-v3" }
          (pageWith [("release-modal-v2", "true")])).1).localStorage.getItem
        "release-modal-v3" = .ok none ∧
    (construct { storageKey := some "release-modal-v3" }
        (dismiss (mergeOptions { storageKey := some "release-modal-v3" }) 0
          (construct { storageKey := some "release-modal-v3" }
            (pageWith [("release-modal-v2", "true")])).1)).1.body =
      [{ id := 0, classes := ["custom-announcement-badge", "dismissing"],
         innerHTML := .badge "Discover the newest features in our latest release!" },
       { id := 1, classes := ["custom-announcement-badge"],
         innerHTML := .badge "Discover the newest features in our latest release!" }] := by
  refine ⟨by decide, rfl, by decide⟩

/-- C7 (amended): for every configuration and every page whose working
storage has no entry under the configured key `K` (whatever it holds under
other keys), the constructor ends normally and appends to the body the
configured variant: the `custom-announcement-badge` element with the badge
markup when `type` is `badge`, the `custom-announcement-modal` element with
the modal markup otherwise.  `dismiss` on that element leaves storage as it
was and sets one timer of 300 ms; when the callback of that timer has run
(it ends normally), the element is no longer in the body and `'true'` is
stored under `K`, and every later construction with the same key leaves the
page as it is. -/
theorem show_then_dismiss_after_timer (options : OptionsArg) (p : Page)
    (hread : p.localStorage.readThrows = false) (hwrite : p.localStorage.writeThrows = false)
    (habsent : p.localStorage.items.lookup (mergeOptions options).storageKey = none) :
    (construct options p).2 = .normal ∧
    (construct options p).1.body = p.body ++
      [if (mergeOptions options).type = "badge" then
          ({ id := p.created, classes := ["custom-announcement-badge"],
             innerHTML := .badge (mergeOptions options).message } : Element)
        else
          { id := p.created, classes := ["custom-announcement-modal"],
            innerHTML := .modal (mergeOptions options).message (mergeOptions options).link
              (mergeOptions options).linkText }] ∧
    (dismiss (mergeOptions options) p.created (construct options p).1).localStorage
      = p.localStorage ∧
    (dismiss (mergeOptions options) p.created (construct options p).1).timers
      = (construct options p).1.timers ++
        [{ callback := .finishDismiss p.created (mergeOptions options).storageKey,
           delayMs := 300 }] ∧
    (fireTimer
        { callback := .finishDismiss p.created (mergeOptions options).storageKey,
          delayMs := 300 }
        (dismiss (mergeOptions options) p.created (construct options p).1)).2 = .normal ∧
    (∀ e ∈ (fireTimer
        { callback := .finishDismiss p.created (mergeOptions options).storageKey,
          delayMs := 300 }
        (dismiss (mergeOptions options) p.created (construct options p).1)).1.body,
      e.id ≠ p.created) ∧
    (fireTimer
        { callback := .finishDismiss p.created (mergeOptions options).storageKey,
          delayMs := 300 }
        (dismiss (mergeOptions options) p.created (construct options p).1)).1.localStorage.getItem
        (mergeOptions options).storageKey = .ok (some "true") ∧
    ∀ options2 : OptionsArg,
      (mergeOptions options2).storageKey = (mergeOptions options).storageKey →
      construct options2 (fireTimer
          { callback := .finishDismiss p.created (mergeOptions options).storageKey,
            delayMs := 300 }
          (dismiss (mergeOptions options) p.created (construct options p).1)).1
        = ((fireTimer
          { callback := .finishDismiss p.created (mergeOptions options).storageKey,
            delayMs := 300 }
          (dismiss (mergeOptions options) p.created (construct options p).1)).1, .normal) := by
  have hs : showThenDismiss options p = fireTimer
      { callback := .finishDismiss p.created (mergeOptions options).storageKey, delayMs := 300 }
      (dismiss (mergeOptions options) p.created (construct options p).1) := rfl
  obtain ⟨hn, hrem, hr2, hlook⟩ := showThenDismiss_of_absent options p hread hwrite habsent
  rw [hs] at hn hrem hr2 hlook
  have hget : (fireTimer
      { callback := .finishDismiss p.created (mergeOptions options).storageKey, delayMs := 300 }
      (dismiss (mergeOptions options) p.created (construct options p).1)).1.localStorage.getItem
      (mergeOptions options).storageKey = .ok (some "true") := by
    simp [LocalStorage.getItem, hr2, hlook]
  refine ⟨?_, ?_, ?_, ?_, hn, hrem, hget, ?_⟩
  · rw [construct_of_absent options p hread habsent]
  · rw [construct_of_absent options p hread habsent]
    by_cases hb : (mergeOptions options).type = "badge" <;>
      simp [hb, createBadge, createModal, badgeElement, modalElement]
  · rw [construct_of_absent options p hread habsent]
    by_cases hb : (mergeOptions options).type = "badge" <;>
      simp [hb, dismiss, createBadge, createModal]
  · simp [dismiss, dismissTimer]
  · intro options2 hkey
    unfold construct
    apply init_of_truthy _ _ (some "true")
    · rw [hkey]; exact hget
    · exact truthy_true

/-- Instance of the amended C7: the flag of `release-modal-v2` is set, the
configured key is `release-modal-v3`; the badge is rendered, and once the
timer of `dismiss` has expired `'true'` is stored under `release-modal-v3`
and a new construction under that key renders nothing. -/
theorem show_then_dismiss_after_timer_witness :
    (construct { storageKey := some "release-modal-v3" }
        (pageWith [("release-modal-v2", "true")])).1.body
      = [{ id := 0, classes := ["custom-announcement-badge"],
           innerHTML := .badge "Discover the newest features in our latest release!" }] ∧
    (fireTimer { callback := .finishDismiss 0 "release-modal-v3", delayMs := 300 }
        (dismiss (mergeOptions { storageKey := some "release-modal-v3" }) 0
          (construct { storageKey := some "release-modal-v3" }
            (pageWith [("release-modal-v2", "true")])).1)).1.localStorage.getItem
        "release-modal-v3" = .ok (some "true") ∧
    (construct { storageKey := some "release-modal-v3" }
        (fireTimer { callback := .finishDismiss 0 "release-modal-v3", delayMs := 300 }
          (dismiss (mergeOptions { storageKey := some "release-modal-v3" }) 0
            (construct { storageKey := some "release-modal-v3" }
              (pageWith [("release-modal-v2", "true")])).1)).1).1.body = [] := by
  have key := show_then_dismiss_after_timer { storageKey := some "release-modal-v3" }
    (pageWith [("release-modal-v2", "true")]) rfl rfl (by decide)
  refine ⟨?_, key.2.2.2.2.2.2.1, ?_⟩
  · rw [key.2.1]; rfl
  · have h := congrArg (fun r => r.1.body)
      (key.2.2.2.2.2.2.2 { storageKey := some "release-modal-v3" } rfl)
    exact h.trans (Eq.refl [])

/-- C8: for every configuration, when storage already holds `'true'` under
the configured key at construction time, the constructor ends normally and
leaves the page as it was: no element created, nothing appended to the body,
no timer set, storage unchanged. -/
theorem dismissed_stays_hidden (options : OptionsArg) (p : Page)
    (hflag : p.localStorage.getItem (mergeOptions options).storageKey = .ok (some "true")) :
    construct options p = (p, .normal) := by
  unfold construct
  exact init_of_truthy _ _ (some "true") hflag truthy_true

/-- Instance of C8 for a modal configuration under the default key. -/
theorem dismissed_stays_hidden_witness :
    (pageWith [("announcement-v1", "true")]).localStorage.getItem
        (mergeOptions { type := some "modal" }).storageKey = .ok (some "true") ∧
    construct { type := some "modal" } (pageWith [("announcement-v1", "true")])
      = (pageWith [("announcement-v1", "true")], .normal) := by
  have h : (pageWith [("announcement-v1", "true")]).localStorage.getItem
      (mergeOptions { type := some "modal" }).storageKey = .ok (some "true") := by
    simp [LocalStorage.getItem, pageWith, mergeOptions, List.lookup]
  exact ⟨h, dismissed_stays_hidden _ _ h⟩

/-- C9 as stated fails: when every `localStorage` call throws, the constructor
ends with the exception thrown by `getItem` and renders nothing, and so does
the `DOMContentLoaded` listener of the file. -/
theorem blocked_storage_propagates :
    construct {} blockedPage = (blockedPage, .thrown .storageAccess) ∧
    (construct {} blockedPage).1.body = [] ∧
    onDOMContentLoaded blockedPage = (blockedPage, .thrown .storageAccess) := by
  decide

/-- The listener on a storage that only refuses `setItem`: both `removeItem`
calls succeed, and the badge of the listener is rendered. -/
theorem onDOMContentLoaded_readOnlyPage :
    (onDOMContentLoaded readOnlyPage).2 = .normal ∧
    (onDOMContentLoaded readOnlyPage).1.body =
      [{ id := 0, classes := ["custom-announcement-badge"],
         innerHTML := .badge "New release available!" }] := by
  decide

/-- What the run `showThenDismiss` leaves when reading works and writing throws. -/
theorem showThenDismiss_of_write_error (options : OptionsArg) (p : Page)
    (hread : p.localStorage.readThrows = false) (hwrite : p.localStorage.writeThrows = true)
    (habsent : p.localStorage.items.lookup (mergeOptions options).storageKey = none) :
    (showThenDismiss options p).2 = .thrown .storageAccess ∧
    (∀ e ∈ (showThenDismiss options p).1.body, e.id ≠ p.created) ∧
    (showThenDismiss options p).1.localStorage = p.localStorage := by
  unfold showThenDismiss
  rw [construct_of_absent options p hread habsent]
  by_cases hb : (mergeOptions options).type = "badge"
  · simp [hb, fireTimer, dismissTimer, runCallback, dismiss, createBadge,
      LocalStorage.setItem, hwrite]
    rintro e (⟨-, h⟩ | ⟨-, h⟩) <;> exact h
  · simp [hb, fireTimer, dismissTimer, runCallback, dismiss, createModal,
      LocalStorage.setItem, hwrite]
    rintro e (⟨-, h⟩ | ⟨-, h⟩) <;> exact h

/-- C9 (amended): storage failures are not caught.  When the read in `init`
throws, the constructor ends with that exception and leaves the page as it
was, so nothing is rendered.  When the read works, the key is absent and
only writes throw, the notice is rendered; `dismiss` itself calls no storage
function; the expiry of its timer removes the element and then ends with the
exception of `setItem`, storage is unchanged, and the next construction
renders the notice again. -/
theorem storage_failure_not_absorbed (options : OptionsArg) (p : Page) :
    (p.localStorage.readThrows = true →
      construct options p = (p, .thrown .storageAccess)) ∧
    (p.localStorage.readThrows = false → p.localStorage.writeThrows = true →
      p.localStorage.items.lookup (mergeOptions options).storageKey = none →
      (construct options p).2 = .normal ∧
      (construct options p).1.body = p.body ++
        [if (mergeOptions options).type = "badge" then
            ({ id := p.created, classes := ["custom-announcement-badge"],
               innerHTML := .badge (mergeOptions options).message } : Element)
          else
            { id := p.created, classes := ["custom-announcement-modal"],
              innerHTML := .modal (mergeOptions options).message (mergeOptions options).link
                (mergeOptions options).linkText }] ∧
      (dismiss (mergeOptions options) p.created (construct options p).1).localStorage
        = p.localStorage ∧
      (showThenDismiss options p).2 = .thrown .storageAccess ∧
      (∀ e ∈ (showThenDismiss options p).1.body, e.id ≠ p.created) ∧
      (showThenDismiss options p).1.localStorage = p.localStorage ∧
      (construct options (showThenDismiss options p).1).2 = .normal ∧
      (construct options (showThenDismiss options p).1).1.body =
        (showThenDismiss options p).1.body ++
          [if (mergeOptions options).type = "badge" then
              ({ id := (showThenDismiss options p).1.created,
                 classes := ["custom-announcement-badge"],
                 innerHTML := .badge (mergeOptions options).message } : Element)
            else
              { id := (showThenDismiss options p).1.created,
                classes := ["custom-announcement-modal"],
                innerHTML := .modal (mergeOptions options).message (mergeOptions options).link
                  (mergeOptions options).linkText }]) := by
  refine ⟨fun h => init_of_read_error _ p h, fun hread hwrite habsent => ?_⟩
  obtain ⟨hthrown, hrem, hsame⟩ :=
    showThenDismiss_of_write_error options p hread hwrite habsent
  have hread2 : (showThenDismiss options p).1.localStorage.readThrows = false := by
    rw [hsame]; exact hread
  have habsent2 : (showThenDismiss options p).1.localStorage.items.lookup
      (mergeOptions options).storageKey = none := by
    rw [hsame]; exact habsent
  refine ⟨?_, ?_, ?_, hthrown, hrem, hsame, ?_, ?_⟩
  · rw [construct_of_absent options p hread habsent]
  · rw [construct_of_absent options p hread habsent]
    by_cases hb : (mergeOptions options).type = "badge" <;>
      simp [hb, createBadge, createModal, badgeElement, modalElement]
  · rw [construct_of_absent options p hread habsent]
    by_cases hb : (mergeOptions options).type = "badge" <;>
      simp [hb, dismiss, createBadge, createModal]
  · rw [construct_of_absent options _ hread2 habsent2]
  · rw [construct_of_absent options _ hread2 habsent2]
    by_cases hb : (mergeOptions options).type = "badge" <;>
      simp [hb, createBadge, createModal, badgeElement, modalElement]

/-- Instances of the amended C9: blocked storage (nothing rendered, exception
out of the constructor) and read-only storage (dismissal not remembered, the
badge is rendered again). -/
theorem storage_failure_not_absorbed_witness :
    (blockedPage.localStorage.readThrows = true ∧
      construct {} blockedPage = (blockedPage, .thrown .storageAccess)) ∧
    (readOnlyPage.localStorage.readThrows = false ∧
      readOnlyPage.localStorage.writeThrows = true ∧
      (showThenDismiss {} readOnlyPage).2 = .thrown .storageAccess ∧
      (showThenDismiss {} readOnlyPage).1.localStorage = readOnlyPage.localStorage ∧
      (construct {} (showThenDismiss {} readOnlyPage).1).1.body
        = [{ id := 1, classes := ["custom-announcement-badge"],
             innerHTML := .badge "Discover the newest features in our latest release!" }]) := by
  have hb := (storage_failure_not_absorbed {} blockedPage).1 rfl
  have hr := (storage_failure_not_absorbed {} readOnlyPage).2 rfl rfl rfl
  refine ⟨⟨rfl, hb⟩, rfl, rfl, hr.2.2.2.1, hr.2.2.2.2.2.1, ?_⟩
  decide

end Announcement

/-! ### Theorems: frame coalescing -/

namespace FrameCoalescing

theorem coalesced_loaded : Coalesced loaded := Or.inl ⟨rfl, rfl⟩

theorem coalesced_handleScroll (s : State) (h : Coalesced s) :
    Coalesced (handleScroll s) ∧ (handleScroll s).ticking = true ∧
    (handleScroll s).frameUpdates = s.frameUpdates := by
  rcases h with ⟨ht, hq⟩ | ⟨ht, hq⟩
  · refine ⟨Or.inr ?_, ?_, ?_⟩ <;> simp [handleScroll, ht, hq]
  · refine ⟨Or.inr ?_, ?_, ?_⟩ <;> simp [handleScroll, ht, hq]

theorem runFrame_of_idle (s : State) (ht : s.ticking = false) (hq : s.frameQueue = []) :
    runFrame s = s := by
  cases s
  simp_all [runFrame]

theorem runFrame_of_ticking (s : State) (hq : s.frameQueue = [.scrollUpdate]) :
    runFrame s =
      { s with frameQueue := [], frameUpdates := s.frameUpdates + 1, ticking := false } := by
  simp [runFrame, hq, runFrameCallback]

theorem coalesced_step (s : State) (e : Event) (h : Coalesced s) : Coalesced (step s e) := by
  cases e
  · exact (coalesced_handleScroll s h).1
  · rcases h with ⟨ht, hq⟩ | ⟨ht, hq⟩
    · rw [step, runFrame_of_idle s ht hq]; exact Or.inl ⟨ht, hq⟩
    · rw [step, runFrame_of_ticking s hq]; exact Or.inl ⟨rfl, rfl⟩
  · rcases h with ⟨ht, hq⟩ | ⟨ht, hq⟩
    · exact Or.inl ⟨ht, hq⟩
    · exact Or.inr ⟨ht, hq⟩

theorem coalesced_run (events : List Event) (s : State) (h : Coalesced s) :
    Coalesced (run events s) := by
  induction events generalizing s with
  | nil => exact h
  | cons e es ih => exact ih (step s e) (coalesced_step s e h)

theorem run_append (xs ys : List Event) (s : State) :
    run (xs ++ ys) s = run ys (run xs s) := by
  simp [run, List.foldl_append]

/-- Between frames nothing runs, and `ticking` stays set once set. -/
theorem run_burst (burst : List Event) (s : State) (h : Coalesced s)
    (hnoframe : Event.frame ∉ burst) :
    (run burst s).frameUpdates = s.frameUpdates ∧
    (s.ticking = true → (run burst s).ticking = true) ∧
    (Event.scroll ∈ burst → (run burst s).ticking = true) := by
  induction burst generalizing s with
  | nil => simp [run]
  | cons e es ih =>
    have hes : Event.frame ∉ es := fun hmem => hnoframe (List.mem_cons_of_mem _ hmem)
    have hstep := ih (step s e) (coalesced_step s e h) hes
    have hrun : run (e :: es) s = run es (step s e) := rfl
    rw [hrun]
    cases e with
    | scroll =>
      obtain ⟨-, htick, hupd⟩ := coalesced_handleScroll s h
      refine ⟨?_, fun _ => hstep.2.1 htick, fun _ => hstep.2.1 htick⟩
      rw [hstep.1]; exact hupd
    | frame => exact absurd (List.mem_cons_self _ _) hnoframe
    | visible =>
      refine ⟨hstep.1, fun ht => hstep.2.1 ht, fun hmem => ?_⟩
      rcases List.mem_cons.mp hmem with hc | hc
      · cases hc
      · exact hstep.2.2 hc

/-- C10: starting from the state in which the listener leaves the script and
after any sequence of scroll events, frames and visibility changes, at most
one frame callback is queued, and `ticking` is true exactly when one is
queued; a burst of events without a frame that contains at least one scroll
event runs `updateScrollEffects` from no frame callback while it lasts, and
the next frame runs it from a frame callback exactly once and leaves nothing
queued. -/
theorem frame_coalescing (before burst : List Event)
    (hnoframe : Event.frame ∉ burst) (hscroll : Event.scroll ∈ burst) :
    ((run before loaded).frameQueue.length ≤ 1 ∧
      ((run before loaded).ticking = true ↔ (run before loaded).frameQueue.length = 1)) ∧
    (run burst (run before loaded)).frameQueue.length = 1 ∧
    (run burst (run before loaded)).frameUpdates = (run before loaded).frameUpdates ∧
    (run (burst ++ [Event.frame]) (run before loaded)).frameUpdates
      = (run before loaded).frameUpdates + 1 ∧
    (run (burst ++ [Event.frame]) (run before loaded)).frameQueue = [] ∧
    (run (burst ++ [Event.frame]) (run before loaded)).ticking = false := by
  have hinv : Coalesced (run before loaded) := coalesced_run before loaded coalesced_loaded
  have hb := run_burst burst (run before loaded) hinv hnoframe
  have hinv2 : Coalesced (run burst (run before loaded)) := coalesced_run burst _ hinv
  have htick : (run burst (run before loaded)).ticking = true := hb.2.2 hscroll
  have hq : (run burst (run before loaded)).frameQueue = [.scrollUpdate] := by
    rcases hinv2 with ⟨ht, -⟩ | ⟨-, hq⟩
    · rw [htick] at ht; cases ht
    · exact hq
  have hframe : run (burst ++ [Event.frame]) (run before loaded)
      = runFrame (run burst (run before loaded)) := by
    rw [run_append]; rfl
  refine ⟨?_, ?_, hb.1, ?_, ?_, ?_⟩
  · rcases hinv with ⟨ht, hq0⟩ | ⟨ht, hq0⟩ <;> simp [ht, hq0]
  · rw [hq]; rfl
  · rw [hframe, runFrame_of_ticking _ hq]
    show (run burst (run before loaded)).frameUpdates + 1 = _
    rw [hb.1]
  · rw [hframe, runFrame_of_ticking _ hq]
  · rw [hframe, runFrame_of_ticking _ hq]

/-- Instance of C10: after a frame, three scroll events and a visibility
change arrive before the next frame; that frame makes the second run from a
frame callback (the first was made by the frame before). -/
theorem frame_coalescing_witness :
    (Event.frame ∉ [Event.scroll, Event.scroll, Event.visible, Event.scroll] ∧
      Event.scroll ∈ [Event.scroll, Event.scroll, Event.visible, Event.scroll]) ∧
    (run [Event.scroll, Event.frame] loaded).frameUpdates = 1 ∧
    (run ([Event.scroll, Event.scroll, Event.visible, Event.scroll] ++ [Event.frame])
      (run [Event.scroll, Event.frame] loaded)).frameUpdates = 2 := by
  have key := frame_coalescing [Event.scroll, Event.frame]
    [Event.scroll, Event.scroll, Event.visible, Event.scroll] (by decide) (by decide)
  exact ⟨⟨by decide, by decide⟩, by decide, key.2.2.2.1⟩

end FrameCoalescing

end LocustDocs
